import Mathlib

/-!
Verification development for the `bring-shrubbery/blog.antoni.ai` repository.

The repository consists of a single entry script (`src/main.js`) that calls an
external blog-engine entry point once with a static configuration object, and a
set of markdown post files with a two-field front-matter header.  One post
(`describing-url-routes-in-frontend-apps.md`) embeds TypeScript examples
(`getRoutes`, `useRoutes`, `joinIfPresent`, `ROUTES.users.byId`) which we embed
as Lean functions and verify against the statements made about them.
-/

/-! ## Site configuration (src/main.js) -/

/-- A social link record of the configuration, holding a title and a url. -/
structure Link where
  title : String
  url : String
deriving DecidableEq, Repr

/-- A request-handling middleware hook registered with the engine.  The only
hook the repository uses is the `ga` analytics hook keyed by a tracking ID. -/
inductive Middleware where
  | ga (trackingId : String)
deriving DecidableEq, Repr

/-- The analytics middleware constructor `ga` imported from the engine. -/
def ga (trackingId : String) : Middleware := Middleware.ga trackingId

/-- The configuration object accepted by the blog-engine entry point, with
exactly the fields `src/main.js` passes. -/
structure BlogConfig where
  title : String
  author : String
  avatar : String
  avatarClass : String
  links : List Link
  lang : String
  middlewares : List Middleware
deriving DecidableEq, Repr

/-- The literal configuration object constructed in `src/main.js`. -/
def blogConfig : BlogConfig :=
  ⟨"Antoni", "Antoni", "./snoop.jpg", "full",
    [⟨"Email", "mailto:antoni@quassum.com"⟩,
     ⟨"GitHub", "https://github.com/bring-shrubbery"⟩],
    "en",
    [ga "G-C0SCBZQ6ME"]⟩

/-! ## Process model

The runtime behaviour of the repository is a sequence of operations on process
state.  The operation language also has constructors for mutating the
configuration, mutating a post file, and raising an error, so that the
frame/invariant claims about the actual program are not vacuous: the actual
program (`mainProgram`) simply never uses them. -/

/-- Operations a program in this setting could perform. -/
inductive Op where
  /-- Invoke the external blog-engine entry point with a configuration. -/
  | callEngine (c : BlogConfig)
  /-- Overwrite the site configuration. -/
  | setConfig (c : BlogConfig)
  /-- Overwrite the post file at an index with new content. -/
  | writePost (idx : Nat) (content : List String)
  /-- Raise an error. -/
  | failWith (msg : String)
deriving DecidableEq, Repr

/-- Process state: the site configuration, the post files (as lists of lines),
and the log of engine invocations made so far. -/
structure ProcState where
  config : BlogConfig
  posts : List (List String)
  engineCalls : List BlogConfig
deriving DecidableEq, Repr

/-- One step of execution.  Invoking the engine only records the call (the
engine reads the state but does not change it); the mutation operations change
the state; `failWith` produces an error. -/
def step (s : ProcState) : Op → Except String ProcState
  | Op.callEngine c => Except.ok ⟨s.config, s.posts, s.engineCalls ++ [c]⟩
  | Op.setConfig c => Except.ok ⟨c, s.posts, s.engineCalls⟩
  | Op.writePost i content => Except.ok ⟨s.config, s.posts.set i content, s.engineCalls⟩
  | Op.failWith m => Except.error m

/-- Run a program (a list of operations) from a state. -/
def run (s : ProcState) : List Op → Except String ProcState
  | [] => Except.ok s
  | op :: ops =>
    match step s op with
    | Except.ok t => run t ops
    | Except.error m => Except.error m

/-- All states the process passes through while running a program, the initial
and final states included (execution stops at an error). -/
def runStates (s : ProcState) : List Op → List ProcState
  | [] => [s]
  | op :: ops =>
    match step s op with
    | Except.ok t => s :: runStates t ops
    | Except.error _ => [s]

/-- The script `src/main.js`, translated: the whole program is a single invocation of the
blog-engine entry point with the static configuration. -/
def mainProgram : List Op := [Op.callEngine blogConfig]

/-! ## Route-definition examples from the URL-routes post -/

/-- The users object returned by `getRoutes`, holding `index` and `byId`. -/
structure UserRoutes where
  index : String
  byId : String → String

/-- The object returned by `getRoutes`, holding the users routes. -/
structure Routes where
  users : UserRoutes

/-- The function `getRoutes` from the "With global dynamic parameters" example: the locale
defaults to `"en"`; the prefix is empty for `"en"` and `"/" ++ locale`
otherwise. -/
def getRoutes (locale? : Option String) : Routes :=
  let locale := locale?.getD "en"
  let l := if locale = "en" then "" else "/" ++ locale
  ⟨⟨l ++ "/users", fun id => l ++ "/users/" ++ id⟩⟩

/-- The function `useRoutes` from the "With hooks inside" example, parameterised by the
value the `useLocale()` hook returns.  Note that it passes the computed
prefix `l` (not the locale itself) to `getRoutes`. -/
def useRoutes (currentLocale : String) : Routes :=
  let l := if currentLocale = "en" then "" else "/" ++ currentLocale
  getRoutes (some l)

/-- The helper `joinIfPresent` from the "With optional dynamic parameters" example:
`str ? base ++ str : base`, where an absent or empty string is falsy. -/
def joinIfPresent (base : String) (str : Option String) : String :=
  match str with
  | some s => if s.isEmpty then base else base ++ s
  | none => base

/-- The route builder `ROUTES.users.byId` from the "With optional dynamic
parameters" example: the template interpolates `id` and then the result of
`joinIfPresent` applied to a slash and the optional slug. -/
def ROUTES.users.byId (id : String) (slug : Option String) : String :=
  "/users/" ++ id ++ joinIfPresent "/" slug

/-! ## The markdown post files, embedded line by line -/

def urlRoutesFile : List String := [
  "---",
  "title:  Describing URL Routes in Frontend Apps",
  "publish_date: 2023-06-25",
  "---",
  "",
  "> This guide describes a better way to handle URL routes in frontend",
  "> applications. It suggests using a JavaScript/TypeScript definition to describe",
  "> the URL, making it look complex if it simplifies the user\x27s life, and avoiding",
  "> lifetime hooks. The guide provides examples of defining routes with dynamic",
  "> parameters, multiple dynamic parameters, optional dynamic parameters,",
  "> mid-route dynamic parameters, global dynamic parameters, and hooks inside.",
  "",
  "## Introduction",
  "",
  "Tracking all the routes you have in your frontend application can be difficult.",
  "The first time developers need to link between pages usually results in URLs",
  "that are defined inline, just passed as an `href` to the link component. This",
  "results in a lot of problems later on when someone needs to update the route",
  "path, or when someone accidentally mistypes the link URL. With time developers",
  "start to realise that there’s a better way to deal with accessing URLs in their",
  "applications.",
  "",
  "In this guide I’m aiming document my experience with defining web app routes.",
  "There are a couple of fundamental principles that you should keep in mind when",
  "defining routes:",
  "",
  "- JavaScript/TypeScript definition should describe what URL you will get.",
  "- Don’t be afraid to make it look complex if it simplifies life of it’s user.",
  "- Try to go as static as possible. Depending on lifetime hooks is usually a bad",
  "  idea.",
  "",
  "## Basic example",
  "",
  "Lets start with the most simple example you will need. If your application does",
  "not have any dynamic routes, this might be all you will need.",
  "",
  "```jsx",
  "const ROUTES = \x7b",
  "  index: \"/\",",
  "  books: \"/books\"",
  "  users: \x7b",
  "    index: \"/users\",",
  "    me: \"/users/me\",",
  "  \x7d,",
  "  externalLink: \"https://quassum.com/\"",
  "\x7d",
  "",
  "ROUTES.books       // -> /books",
  "ROUTES.users.index // -> /users",
  "ROUTES.users.me    // -> /users/me",
  "```",
  "",
  "Every route level get’s their own object here. The root level routes stay in the",
  "root level object. As soon as there are nested routes we add another object. In",
  "this case you can see that since `/users` have a nested route `/users/me`",
  "everything that starts with `/users` goes into its’ own object. For the `/users`",
  "route itself we add `index` key that corresponds with the way browsers deal with",
  "the `index.html` file.",
  "",
  "## With dynamic parameters",
  "",
  "The next step in the route definition journey are the dynamic routes. As soon as",
  "you will have data coming from a database you will most likely need dynamic",
  "routes. This is solved with a simple function. With TypeScript it’s also",
  "type-safe!",
  "",
  "```jsx",
  "const ROUTES = \x7b",
  "  users: \x7b",
  "    index: \"/users\",",
  "    byId: (id: string) => `/users/$\x7bid\x7d`,",
  "  \x7d",
  "\x7d",
  "",
  "ROUTES.users.byId(\x271234\x27) // -> /users/1234",
  "```",
  "",
  "Dynamic routes become easy to handle with this setup. Every time you want to",
  "access a user by their ID you have to use `byId` function, which reminds you",
  "that you need to pass an `id` which has to be of type `string`.",
  "",
  "You can also use objects instead of regular parameters…",
  "",
  "```tsx",
  "const ROUTES = \x7b",
  "  users: \x7b",
  "    index: \"/users\",",
  "    byId: (\x7b id \x7d: \x7b id: string \x7d) => `/users/$\x7bid\x7d`,",
  "  \x7d,",
  "\x7d;",
  "",
  "ROUTES.users.byId(\x7b id: \"1234\" \x7d); // -> /users/1234",
  "```",
  "",
  "## With multiple dynamic parameters",
  "",
  "Naturally, it becomes slightly more complex when you have multiple dynamic",
  "segments. But nothings that we cannot manage.",
  "",
  "```tsx",
  "const ROUTES = \x7b",
  "  users: \x7b",
  "    index: \"/users\",",
  "    byId: (id: string) => \x7b",
  "      return \x7b",
  "        bySlug: (slug: string) => `/users/$\x7bid\x7d/$\x7bslug\x7d`,",
  "      \x7d;",
  "    \x7d,",
  "  \x7d,",
  "\x7d;",
  "",
  "ROUTES.users.byId(\"1234\").bySlug(\"something\"); // -> /users/1234/something",
  "```",
  "",
  "Here, instead of returning the URL from `byId` straight away, we return an",
  "object with another function you can call. In this case you just chain these",
  "function calls and you get a nicely formatted URL.",
  "",
  "Don’t forget that in these dynamic segments you are not forced to pass simple",
  "types through parameters. You could have a function that takes a whole object",
  "and just returns one string, joining multiple properties from that object into",
  "url. For example, you could have URL defined form user data:",
  "",
  "```tsx",
  "const ROUTES = \x7b",
  "  user: \x7b",
  "    publicUrl: \x7b",
  "      byUserData: (user: UserData) => `/u/$\x7buser.username\x7d/$\x7buser.id\x7d`,",
  "    \x7d,",
  "  \x7d,",
  "\x7d;",
  "```",
  "",
  "The main thing to keep in mind here is the first principle that I’ve described",
  "in the intro. Your structure should explain to it’s user how the URL will look",
  "like. Try to avoid cases where you just have: `userById` but then return a url",
  "that looks like this: `/user/info/something/[id]/something-else`",
  "",
  "## With optional dynamic parameters",
  "",
  "Having optional parameters is also quite simple. You can achieve this by either",
  "having optional parameters or optional property in an object. The only thing you",
  "have to keep in mind is how you manage the cases when that parameter is not",
  "passed in.",
  "",
  "```tsx",
  "const joinIfPresent = (base: string, str?: string) =>",
  "  str ? `$\x7bbase\x7d$\x7bstr\x7d` : base;",
  "",
  "const ROUTES = \x7b",
  "  users: \x7b",
  "    index: \"/users\",",
  "    byId: (\x7b id, slug \x7d: \x7b id: string; slug?: string \x7d) =>",
  "      `/users/$\x7bid\x7d$\x7bjoinIfPresent(\"/\", slug)\x7d`,",
  "  \x7d,",
  "\x7d;",
  "```",
  "",
  "## With mid-route dynamic parameters",
  "",
  "This one is quite simple, but important to show. If you have a the dynamic",
  "segment somewhere in the middle of the route. This is how you handle it.",
  "",
  "```tsx",
  "const ROUTES = \x7b",
  "  users: \x7b",
  "    index: \"/users\",",
  "    byId: (\x7b id \x7d: \x7b id: string \x7d) => \x7b",
  "      return \x7b",
  "        settings: `/users/$\x7bid\x7d/settings`,",
  "        account: `/users/$\x7bid\x7d/account`,",
  "      \x7d;",
  "    \x7d,",
  "  \x7d,",
  "\x7d;",
  "```",
  "",
  "## With global dynamic parameters",
  "",
  "Sometimes you need to have global parameter. In this case it’s locale of your",
  "URL. If you provide locale, it will be available throughout the routes. The fact",
  "that you have to pass it into the localisation strings manually might look like",
  "not the best solution, but remember, we might have external links here, or some",
  "links might not be localised. When doing it manually we ensure that it’s exactly",
  "where it’s supposed to be, while enabling flexibility to modify the URL",
  "structure.",
  "",
  "```tsx",
  "const getRoutes = (locale?: string = \"en\") => \x7b",
  "  const l = locale === \"en\" ? \"\" : `/$\x7blocale\x7d`;",
  "",
  "  return \x7b",
  "    users: \x7b",
  "      index: `$\x7bl\x7d/users`,",
  "      byId: (id: string) => `$\x7bl\x7d/users/$\x7bid\x7d`,",
  "    \x7d,",
  "  \x7d;",
  "\x7d;",
  "```",
  "",
  "## With hooks inside",
  "",
  "Now, `getRoutes` should be preferred when it comes to providing global",
  "variables, but sometimes it makes sense to use hooks instead. When you can only",
  "access certain data from a hook, it might be fine to convert your `getRoutes` to",
  "`useRoutes` and put the hook you depend on inside.",
  "",
  "The main thing to keep in mind here is that you have to make sure that your",
  "hooks work reliably on the server side. If you don’t, you will encounter",
  "hydration errors, so make sure that data matches between server and client side.",
  "",
  "```tsx",
  "const getRoutes = (locale?: string = \"en\") => \x7b",
  "  const l = locale === \"en\" ? \"\" : `/$\x7blocale\x7d`;",
  "",
  "  return \x7b",
  "    users: \x7b",
  "      index: `$\x7bl\x7d/users`,",
  "      byId: (id: string) => `$\x7bl\x7d/users/$\x7bid\x7d`,",
  "    \x7d,",
  "  \x7d;",
  "\x7d;",
  "",
  "const useRoutes = () => \x7b",
  "  const locale = useLocale();",
  "  const l = locale == \"en\" ? \"\" : `/$\x7blocale\x7d`;",
  "",
  "  return getRoutes(l);",
  "\x7d;",
  "",
  "// In your component",
  "const YourComponent = () => \x7b",
  "  const routes = useRoutes();",
  "",
  "  // when locale is \"de\", then it links to: /de/users/1234",
  "  return <a href=\x7broutes.users.byId(\"1234\")\x7d />;",
  "\x7d;",
  "```",
  "",
  "## Summary",
  "",
  "The examples in this guide offer most of the use cases you will need for a",
  "centralised route definition. Feel free to use this guide as a look up",
  "cheatsheet."
]

def reactSnippetsFile : List String := [
  "---",
  "title: Modern and Useful React Snippets",
  "publish_date: 2023-05-29",
  "---",
  "",
  "## TailwindCSS type-safe component",
  "",
  "> **TIP:** Select \"MyComponent\" in VSCode and press `cmd + d` several times to",
  "> select all occurances of \"MyComponent\". Then type in the name of your",
  "> component.",
  "",
  "```tsx",
  "import \x7b cn \x7d from \"@/lib/utils\";",
  "",
  "interface MyComponentProps extends React.ComponentProps<\"div\"> \x7b",
  "  // Custom props go here",
  "\x7d",
  "",
  "const MyComponent = (\x7b",
  "  className,",
  "  children,",
  "  ...props",
  "\x7d: React.PropsWithChildren<MyComponentProps>) => \x7b",
  "  return (",
  "    <div className=\x7bcn(\"\", className)\x7d \x7b...props\x7d>",
  "      \x7bchildren\x7d",
  "    </div>",
  "  );",
  "\x7d;",
  "",
  "export \x7b MyComponent, type MyComponentProps \x7d;",
  "```"
]

def remoteWorkFile : List String := [
  "---",
  "title: A case for remote work.",
  "publish_date: 2029-01-01",
  "---",
  "",
  "If you\x27ve ever needed a job you",
  "have probably been in the",
  "cringeland of Linkedin.",
  "It\x27s the site where you go when",
  "you want to be reminded what",
  "\"resources\" mean in \"Human",
  "Resources\".",
  "",
  "There is a misconception among many leaders about the source of high quality collaborative work.",
  "Many people in leadership positions seem to think that efficient collaboration at work is only possible when people are physically in one room, having a \"real\" conversation.",
  "Although I mildly agree with this statement, it is very similar to saying something like \"my car goes really fast, because it has a huge engine\".",
  "Although not completely false, having a big engine in a car doesn\x27t grant you speed, efficiency does.",
  "Every kind of efficiency contributes to faster car, whether it\x27s efficiency of your engine or the shape of your car (aerodynamic efficiency).",
  "Same goes for conversations.",
  "Efficient conversation is the backbone of productive collaboration, and the one thing that have persisted among all efficient conversations I had in my life is the ability to listen.",
  "The company leaders who inspired me to write this blog in the first place don\x27t seem to know anything about this.",
  "To summarise the average in-person meeting I had at that company I made a list of issues I saw, which prevented effective collaboration:",
  "",
  "- Talking over each other",
  "- Not hearing what others say while just repeating their own point over and over again.",
  "- After a period of engaging in back-and-forth conversation, one of those leaders just forgot that I am in the room, and stopped talking completely, focusing on what\x27s happening in their computer.",
  "- Picking up the phone in a middle of talking with me, talking to someone else.",
  "",
  ""
]

def reactSnippetsAltFile : List String := [
  "---",
  "title: Modern and Useful React Snippets",
  "publish_date: 2023-05-29",
  "---",
  "",
  "## TailwindCSS type-safe component",
  "",
  "```tsx",
  "import \x7b cn \x7d from \"@/lib/cn\"",
  "",
  "interface MyComponentProps extends ComponentProps<\"div\"> \x7b",
  "  // Custom props go here",
  "\x7d",
  "",
  "const MyComponent = (\x7b className, ...props \x7d: React.PropsWithChildren<MyComponentProps>) => \x7b",
  "  return <div className=\x7bcn(\"\", className)\x7d \x7b...props\x7d>",
  "    \x7bchildren\x7d",
  "  </div>",
  "\x7d",
  "",
  "export \x7b MyComponent, type MyComponentProps \x7d",
  "```"
]
/-- All markdown post files of the repository. -/
def sourceFiles : List (List String) := [urlRoutesFile, reactSnippetsFile, remoteWorkFile, reactSnippetsAltFile]

/-! ## Front-matter format -/

/-- A parsed post: a title, a date and a body. -/
structure Post where
  title : String
  date : String
  body : List String
deriving DecidableEq, Repr

/-- Modelled from the spec: a front-matter field line `name: value` (the
parsing itself happens in the external engine, whose code is not in the
repository).  Returns the value of the named field, leading spaces dropped. -/
def parseField (name line : String) : Option String :=
  let pre := (name ++ ":").data
  if pre.isPrefixOf line.data then
    some (String.mk ((line.data.drop pre.length).dropWhile (fun c => c = ' ')))
  else none

/-- Modelled from the spec: a markdown post file is a front-matter block of
exactly two fields, `title` then `publish_date`, between `---` delimiters,
followed by the body (the parsing itself happens in the external engine). -/
def parsePost : List String → Option Post
  | "---" :: t :: d :: "---" :: body =>
    match parseField "title" t, parseField "publish_date" d with
    | some title, some date => some ⟨title, date, body⟩
    | _, _ => none
  | _ => none

/-- An ISO `YYYY-MM-DD` date. -/
def isIsoDate (s : String) : Bool :=
  match s.data with
  | [y1, y2, y3, y4, '-', m1, m2, '-', d1, d2] =>
    y1.isDigit && y2.isDigit && y3.isDigit && y4.isDigit &&
    m1.isDigit && m2.isDigit && d1.isDigit && d2.isDigit
  | _ => false

/-- A file parses into a `Post` whose date is an ISO date. -/
def parsesWithIsoDate (f : List String) : Bool :=
  match parsePost f with
  | some p => isIsoDate p.date
  | none => false

/-! ## Theorems -/

/-- A file is a draft of the "Modern React Snippets" post when it parses and
its front-matter title is the title of that post. -/
def isReactSnippetsDraft (f : List String) : Bool :=
  match parsePost f with
  | some p => p.title == "Modern and Useful React Snippets"
  | none => false

/-- C1: running `src/main.js` invokes the blog-engine entry point exactly once,
with the static configuration object whose fields are exactly the literals of
the source: title, author, avatar, avatarClass, links (title/url records),
lang, middlewares. -/
theorem main_invokes_engine_once_with_exact_config :
    ∀ posts : List (List String),
      run ⟨blogConfig, posts, []⟩ mainProgram = Except.ok ⟨blogConfig, posts, [blogConfig]⟩
      ∧ blogConfig = ⟨"Antoni", "Antoni", "./snoop.jpg", "full",
          [⟨"Email", "mailto:antoni@quassum.com"⟩,
           ⟨"GitHub", "https://github.com/bring-shrubbery"⟩],
          "en", [Middleware.ga "G-C0SCBZQ6ME"]⟩ :=
  fun _ => ⟨rfl, rfl⟩

/-- C2: every markdown post file of the repository parses into a post record
of title, ISO date and body under the two-field front-matter format. -/
theorem every_post_file_parses_with_iso_date :
    sourceFiles.all parsesWithIsoDate = true := by decide

/-- C3 evaluation: with `useLocale()` returning "de", the routes computed via
`useRoutes` give a double slash, `byId "1234" = "//de/users/1234"`, not the
"/de/users/1234" stated by the comment of the example. -/
theorem useRoutes_de_byId_doubles_slash :
    (useRoutes "de").users.byId "1234" = "//de/users/1234" := rfl

/-- C4: `getRoutes()` equals `getRoutes("en")`; the "en" routes are
unprefixed; for any other locale every route is the "en" route with
`"/" ++ locale` prepended. -/
theorem getRoutes_locale_prefixing :
    getRoutes none = getRoutes (some "en")
    ∧ (getRoutes (some "en")).users.index = "/users"
    ∧ (∀ id, (getRoutes (some "en")).users.byId id = "/users/" ++ id)
    ∧ (∀ locale, locale ≠ "en" →
        (getRoutes (some locale)).users.index = "/" ++ locale ++ (getRoutes (some "en")).users.index
        ∧ ∀ id, (getRoutes (some locale)).users.byId id
            = "/" ++ locale ++ (getRoutes (some "en")).users.byId id) := by
  refine ⟨rfl, rfl, fun id => rfl, fun locale h => ⟨?_, fun id => ?_⟩⟩
  · simp [getRoutes, h, String.append_assoc]
  · simp [getRoutes, h, String.append_assoc]

/-- Witness for C4 at the locale "de" and the id "1234". -/
theorem getRoutes_locale_prefixing_witness :
    "de" ≠ "en"
    ∧ (getRoutes (some "de")).users.byId "1234"
        = "/" ++ "de" ++ (getRoutes (some "en")).users.byId "1234" :=
  ⟨by decide, (getRoutes_locale_prefixing.2.2.2 "de" (by decide)).2 "1234"⟩

/-- C5 counterexample: with the slug absent, `ROUTES.users.byId` returns
"/users/1234/" with a trailing slash, not "/users/1234". -/
theorem byId_no_slug_has_trailing_slash :
    ¬ (ROUTES.users.byId "1234" none = "/users/" ++ "1234") := by decide

/-- C5 amended: with the slug absent the route is the id route followed by a
trailing slash, since `joinIfPresent` returns its base when `str` is absent; a
non-empty slug is appended after that slash; the empty slug behaves like an
absent one. -/
theorem byId_optional_slug_routes :
    ∀ id : String,
      ROUTES.users.byId id none = "/users/" ++ id ++ "/"
      ∧ (∀ s : String, s ≠ "" → ROUTES.users.byId id (some s) = "/users/" ++ id ++ "/" ++ s)
      ∧ ROUTES.users.byId id (some "") = "/users/" ++ id ++ "/" := by
  intro id
  refine ⟨rfl, fun s h => ?_, rfl⟩
  have hs : s.isEmpty = false := by
    cases hs : s.isEmpty
    · rfl
    · exact absurd ((String.isEmpty_iff s).mp hs) h
  simp [ROUTES.users.byId, joinIfPresent, hs, String.append_assoc]

/-- Witness for the amended C5 at the id "1234" and the slug "abc". -/
theorem byId_optional_slug_routes_witness :
    "abc" ≠ "" ∧ ROUTES.users.byId "1234" (some "abc") = "/users/" ++ "1234" ++ "/" ++ "abc" :=
  ⟨by decide, ((byId_optional_slug_routes "1234").2.1 "abc" (by decide))⟩

/-- C6: exactly the two embedded React-snippets files are drafts of the
"Modern React Snippets" post; they share the same front matter (title
"Modern and Useful React Snippets", publish_date 2023-05-29) but their bodies
differ, so the two documents are not equal. -/
theorem react_snippets_two_differing_drafts :
    sourceFiles.filter isReactSnippetsDraft = [reactSnippetsFile, reactSnippetsAltFile]
    ∧ (parsePost reactSnippetsFile).map Post.title = some "Modern and Useful React Snippets"
    ∧ (parsePost reactSnippetsAltFile).map Post.title = some "Modern and Useful React Snippets"
    ∧ (parsePost reactSnippetsFile).map Post.date = some "2023-05-29"
    ∧ (parsePost reactSnippetsAltFile).map Post.date = some "2023-05-29"
    ∧ (parsePost reactSnippetsFile).map Post.body ≠ (parsePost reactSnippetsAltFile).map Post.body
    ∧ reactSnippetsFile ≠ reactSnippetsAltFile := by
  refine ⟨by decide, by decide, by decide, by decide, by decide, by decide, by decide⟩

/-- C7: at every state the process passes through while running the program,
the configuration still equals its initial literal value: it is never
mutated after construction. -/
theorem config_never_mutated :
    ∀ posts : List (List String),
      ∀ t ∈ runStates ⟨blogConfig, posts, []⟩ mainProgram, t.config = blogConfig := by
  intro posts t ht
  rw [show runStates ⟨blogConfig, posts, []⟩ mainProgram
      = [⟨blogConfig, posts, []⟩, ⟨blogConfig, posts, [blogConfig]⟩] from rfl] at ht
  simp only [List.mem_cons, List.not_mem_nil, or_false] at ht
  rcases ht with h | h <;> subst h <;> rfl

/-- Witness for C7 at the initial state with no post files. -/
theorem config_never_mutated_witness :
    (⟨blogConfig, [], []⟩ : ProcState) ∈ runStates ⟨blogConfig, [], []⟩ mainProgram
    ∧ (⟨blogConfig, [], []⟩ : ProcState).config = blogConfig :=
  ⟨by simp [mainProgram, runStates, step],
   config_never_mutated [] ⟨blogConfig, [], []⟩ (by simp [mainProgram, runStates, step])⟩

/-- C8: the middlewares list of the configuration is exactly the single `ga`
analytics hook keyed by "G-C0SCBZQ6ME". -/
theorem middlewares_exactly_one_ga :
    blogConfig.middlewares = [ga "G-C0SCBZQ6ME"] ∧ blogConfig.middlewares.length = 1 :=
  ⟨rfl, rfl⟩

/-- C9: running the program succeeds for every collection of post files,
malformed or not, so no repository operation raises, validates, retries or
recovers from an error; post contents are never even inspected. -/
theorem program_total_no_error_handling :
    ∀ posts : List (List String),
      run ⟨blogConfig, posts, []⟩ mainProgram = Except.ok ⟨blogConfig, posts, [blogConfig]⟩ :=
  fun _ => rfl

/-- C10: at every state the process passes through while running the program,
the post files are unchanged from their initial contents: posts are consumed
read-only. -/
theorem posts_never_mutated :
    ∀ posts : List (List String),
      ∀ t ∈ runStates ⟨blogConfig, posts, []⟩ mainProgram, t.posts = posts := by
  intro posts t ht
  rw [show runStates ⟨blogConfig, posts, []⟩ mainProgram
      = [⟨blogConfig, posts, []⟩, ⟨blogConfig, posts, [blogConfig]⟩] from rfl] at ht
  simp only [List.mem_cons, List.not_mem_nil, or_false] at ht
  rcases ht with h | h <;> subst h <;> rfl

/-- Witness for C10 at the initial state holding one post file. -/
theorem posts_never_mutated_witness :
    (⟨blogConfig, [urlRoutesFile], []⟩ : ProcState)
        ∈ runStates ⟨blogConfig, [urlRoutesFile], []⟩ mainProgram
    ∧ (⟨blogConfig, [urlRoutesFile], []⟩ : ProcState).posts = [urlRoutesFile] :=
  ⟨by simp [mainProgram, runStates, step],
   posts_never_mutated [urlRoutesFile] ⟨blogConfig, [urlRoutesFile], []⟩
     (by simp [mainProgram, runStates, step])⟩
